import Mathlib

/-!
Shallow embedding of the iaptic-js refresh-and-cache consistency layer
(`src/iaptic-stripe.ts` and `src/refresh-scheduler.ts`).

Time is epoch milliseconds, modelled as `Int`.  JavaScript `Date.now()`
becomes an explicit `now : Int` parameter; the platform timer facility
is modelled by recording whether `setTimeout` would have armed a timer.
The `fetch`-based backend is an explicit input: each operation receives
the response it would observe (`none` standing for a thrown transport
error), and reports in its result whether the backend was contacted.
-/

namespace IapticJS

/-- A product, opaque to the refresh-and-cache core beyond identity
(`types.ts` `Product`; the remaining fields are never read by the code
modelled here). -/
structure Product where
  id : String
deriving DecidableEq, Repr

/-- `CachedProducts` from `iaptic-stripe.ts`: the persisted product cache. -/
structure CachedProducts where
  products : List Product
  fetchedAt : Int
deriving DecidableEq, Repr

/-- A purchase (`types.ts` `Purchase`) restricted to the two fields the
scheduler reads: `purchaseId`, and `expirationDate` as the parsed epoch
millisecond (`none` models a falsy `expirationDate`, which
`schedulePurchaseRefreshes` tests for before parsing). -/
structure Purchase where
  purchaseId : String
  expirationDate : Option Int
deriving DecidableEq, Repr

/-- `ScheduledRefresh` from `refresh-scheduler.ts`. -/
structure ScheduledRefresh where
  id : String
  subscriptionId : String
  scheduledAt : Int
  completed : Bool
  inProgress : Bool
  reason : String
deriving DecidableEq, Repr

/-- JavaScript `String.prototype.startsWith`, structurally: whether `p` is
a prefix of `s`. -/
def strStartsWith (s p : String) : Bool :=
  p.data.isPrefixOf s.data

/-- JavaScript string falsiness for `Option String` values: `undefined`
(`none`) and the empty string are falsy. -/
def strFalsy : Option String → Bool
  | none => true
  | some s => s.isEmpty

/-- The composite schedule id, as built in `scheduleRefresh`:
the template string of `subscriptionId` and `date.getTime()`. -/
def mkScheduleId (subscriptionId : String) (t : Int) : String :=
  subscriptionId ++ "-" ++ toString t

/-- `SET_TIMEOUT_MAX_DELAY` from `RefreshScheduler.setTimeout`. -/
def SET_TIMEOUT_MAX_DELAY : Int := 2147483647

/-- The guard part of `RefreshScheduler.setTimeout` (lines 371-379):
whether a platform timer is armed for a schedule at `scheduledAt` when the
current time is `now`.  Returns `false` when the delay is non-positive or
exceeds the maximum representable delay. -/
def timerArmed (scheduledAt now : Int) : Bool :=
  let delay := scheduledAt - now
  if delay ≤ 0 then false
  else if delay > SET_TIMEOUT_MAX_DELAY then false
  else true

/-- Result of `scheduleRefresh`: the updated schedule collection, and
whether a platform timer was armed. -/
structure ScheduleRefreshResult where
  schedules : List ScheduledRefresh
  armed : Bool
deriving DecidableEq, Repr

/-- `RefreshScheduler.scheduleRefresh` (lines 416-432): builds the schedule
record, drops the call when a schedule with the same id already exists,
otherwise appends it and runs `setTimeout` on it. -/
def scheduleRefresh (schedules : List ScheduledRefresh)
    (subscriptionId : String) (date : Int) (reason : String)
    (now : Int) : ScheduleRefreshResult :=
  let schedule : ScheduledRefresh :=
    { id := mkScheduleId subscriptionId date
      subscriptionId := subscriptionId
      scheduledAt := date
      completed := false
      inProgress := false
      reason := reason }
  if schedules.any (fun s => s.id == schedule.id) then
    { schedules := schedules, armed := false }
  else
    { schedules := schedules ++ [schedule]
      armed := timerArmed date now }

/-- `RefreshScheduler.schedulePurchaseRefreshes` (lines 434-452): for a
purchase with a (truthy) expiration date, attempts to schedule a
`pre-expiration` refresh 10000 ms before expiration and a
`post-expiration` refresh 10000 ms after, each only when strictly in the
future. -/
def schedulePurchaseRefreshes (schedules : List ScheduledRefresh)
    (purchase : Purchase) (now : Int) : List ScheduledRefresh :=
  match purchase.expirationDate with
  | none => schedules
  | some expiration =>
    let beforeExpiration := expiration - 10000
    let afterExpiration := expiration + 10000
    let dates : List (Int × String) :=
      [(beforeExpiration, "pre-expiration"), (afterExpiration, "post-expiration")]
    dates.foldl
      (fun acc d =>
        if d.1 > now then (scheduleRefresh acc purchase.purchaseId d.1 d.2 now).schedules
        else acc)
      schedules

/-- Result of one timer-callback execution: the updated schedule
collection, and whether the purchase-fetch operation (`getPurchases`) was
invoked. -/
structure CallbackResult where
  schedules : List ScheduledRefresh
  fetchCalled : Bool
deriving DecidableEq, Repr

/-- The timer callback of `RefreshScheduler.setTimeout` (lines 381-412),
for the schedule at index `i` of the collection (the callback captures the
schedule object by reference; while the object is in the collection, its
mutations are the in-place updates at index `i`).  `now` is `Date.now()`
at callback entry, `failTime` is `Date.now()` in the catch block, and
`refreshOk` tells whether the awaited `getPurchases` call succeeds.  The
catch block swallows the error, so the function is total and returns no
error. -/
def runScheduleCallback (schedules : List ScheduledRefresh) (i : Nat)
    (now failTime : Int) (refreshOk : Bool) : CallbackResult :=
  match schedules[i]? with
  | none => { schedules := schedules, fetchCalled := false }
  | some schedule =>
    if schedule.completed then
      { schedules := schedules, fetchCalled := false }
    else if schedule.scheduledAt - 10000 > now then
      { schedules := schedules, fetchCalled := false }
    else if schedules.any
        (fun s => s.subscriptionId == schedule.subscriptionId && s.inProgress) then
      { schedules := schedules, fetchCalled := false }
    else
      let st1 := schedules.set i { schedule with inProgress := true }
      if refreshOk then
        { schedules := st1.set i { schedule with inProgress := false, completed := true }
          fetchCalled := true }
      else
        let st2 :=
          if strStartsWith schedule.reason ("retry-") then st1
          else
            (scheduleRefresh st1 schedule.subscriptionId (failTime + 30000)
              ("retry-" ++ schedule.reason) failTime).schedules
        { schedules := st2.set i { schedule with inProgress := false }
          fetchCalled := true }

deriving instance DecidableEq for Except

/-- The observation `refreshProducts` makes of the backend `fetch` of
`/v3/stripe/prices` when the fetch does not throw: the HTTP-level `ok`
flag of the response, and the parsed JSON body's `ok` flag and `products`
field (`none` models a missing/falsy `products`). -/
structure ProductsHttpResponse where
  ok : Bool
  dataOk : Bool
  products : Option (List Product)
deriving DecidableEq, Repr

/-- Result of `refreshProducts`: the value returned or the error thrown
(error messages as in the source; a thrown transport error is re-thrown
as-is, modelled by a fixed marker message), the product cache afterwards,
and whether the backend was contacted. -/
structure RefreshProductsResult where
  result : Except String (List Product)
  cache : Option CachedProducts
  backendCalled : Bool
deriving DecidableEq, Repr

/-- The `try` block of `IapticStripe.refreshProducts` (lines 77-99),
entered when the cache is absent or stale. -/
def refreshProductsFetch (cache : Option CachedProducts) (now : Int)
    (backend : Option ProductsHttpResponse) : RefreshProductsResult :=
  match backend with
  | none =>
    { result := Except.error "transport error", cache := cache, backendCalled := true }
  | some r =>
    if !r.ok then
      { result := Except.error "Failed to fetch prices from Iaptic"
        cache := cache, backendCalled := true }
    else
      match r.products with
      | none =>
        { result := Except.error "Invalid response from Iaptic"
          cache := cache, backendCalled := true }
      | some ps =>
        if !r.dataOk then
          { result := Except.error "Invalid response from Iaptic"
            cache := cache, backendCalled := true }
        else
          { result := Except.ok ps
            cache := some { products := ps, fetchedAt := now }
            backendCalled := true }

/-- `IapticStripe.refreshProducts` (lines 70-100).  `cache` is the stored
`CachedProducts` entry (a stored entry always carries a `products` array,
which is truthy in JavaScript, so the `cached?.products` test reduces to
the entry's presence).  `backend` is `none` when the fetch throws a
transport error. -/
def refreshProducts (cache : Option CachedProducts) (now : Int)
    (backend : Option ProductsHttpResponse) : RefreshProductsResult :=
  match cache with
  | some c =>
    if c.fetchedAt > now - 60000 then
      { result := Except.ok c.products, cache := cache, backendCalled := false }
    else refreshProductsFetch cache now backend
  | none => refreshProductsFetch cache now backend

/-- The observation `getPurchases` makes of the backend `fetch` of
`/v3/stripe/purchases` when the fetch does not throw: the HTTP `ok` flag,
and the parsed body's `ok` flag, `purchases` array and optional
`newAccessToken`. -/
structure PurchasesHttpResponse where
  ok : Bool
  dataOk : Bool
  purchases : List Purchase
  newAccessToken : Option String
deriving DecidableEq, Repr

/-- Result of `getPurchases`: the value returned or the error thrown, the
persisted access token afterwards, the scheduler's collection afterwards,
and whether the backend was contacted. -/
structure GetPurchasesResult where
  result : Except String (List Purchase)
  storedToken : Option String
  schedules : List ScheduledRefresh
  backendCalled : Bool
deriving DecidableEq, Repr

/-- `IapticStripe.getPurchases` (lines 153-200).  `accessTokenArg` is the
optional argument, `storedToken` the persisted `iaptic_access_token`
(`none` when absent).  On a successful response every returned purchase is
handed to `schedulePurchaseRefreshes`, then a truthy `newAccessToken`
overwrites the persisted token.  (The error message attached to a non-ok
HTTP response is read from the response body in the source; it is
abstracted to the source's fallback message here.) -/
def getPurchases (accessTokenArg : Option String) (storedToken : Option String)
    (schedules : List ScheduledRefresh) (now : Int)
    (backend : Option PurchasesHttpResponse) : GetPurchasesResult :=
  let accessToken := if strFalsy accessTokenArg then storedToken else accessTokenArg
  if strFalsy accessToken then
    { result := Except.ok [], storedToken := storedToken
      schedules := schedules, backendCalled := false }
  else
    match backend with
    | none =>
      { result := Except.error "transport error", storedToken := storedToken
        schedules := schedules, backendCalled := true }
    | some r =>
      if !r.ok then
        { result := Except.error "Failed to fetch purchases", storedToken := storedToken
          schedules := schedules, backendCalled := true }
      else if !r.dataOk then
        { result := Except.error "Invalid purchases response", storedToken := storedToken
          schedules := schedules, backendCalled := true }
      else
        { result := Except.ok r.purchases
          storedToken :=
            if strFalsy r.newAccessToken then storedToken else r.newAccessToken
          schedules :=
            r.purchases.foldl (fun acc p => schedulePurchaseRefreshes acc p now) schedules
          backendCalled := true }

/-- The observation `changePlan` makes of the backend `fetch` of
`/v3/stripe/change-plan` when the fetch does not throw: the HTTP `ok`
flag, the body's `ok` flag, its `purchase` (`none` models a missing/falsy
purchase) and optional `newAccessToken`. -/
structure ChangePlanHttpResponse where
  ok : Bool
  dataOk : Bool
  purchase : Option Purchase
  newAccessToken : Option String
deriving DecidableEq, Repr

/-- Result of `changePlan`: the purchase returned or the error thrown, the
persisted access token afterwards, the scheduler's collection afterwards,
and whether the backend was contacted. -/
structure ChangePlanResult where
  result : Except String Purchase
  storedToken : Option String
  schedules : List ScheduledRefresh
  backendCalled : Bool
deriving DecidableEq, Repr

/-- `IapticStripe.changePlan` (lines 256-307).  On success it stores a
truthy `newAccessToken`, hands the returned purchase to
`schedulePurchaseRefreshes`, and then calls `scheduleRefresh` for the same
purchase 10000 ms from now with reason `post-change-verification`. -/
def changePlan (accessTokenArg : Option String) (storedToken : Option String)
    (schedules : List ScheduledRefresh) (now : Int)
    (backend : Option ChangePlanHttpResponse) : ChangePlanResult :=
  let accessToken := if strFalsy accessTokenArg then storedToken else accessTokenArg
  if strFalsy accessToken then
    { result := Except.error "No access token available", storedToken := storedToken
      schedules := schedules, backendCalled := false }
  else
    match backend with
    | none =>
      { result := Except.error "transport error", storedToken := storedToken
        schedules := schedules, backendCalled := true }
    | some r =>
      if !r.ok then
        { result := Except.error "Failed to change plan", storedToken := storedToken
          schedules := schedules, backendCalled := true }
      else
        match r.purchase with
        | none =>
          { result := Except.error "Invalid change plan response", storedToken := storedToken
            schedules := schedules, backendCalled := true }
        | some purchase =>
          if !r.dataOk then
            { result := Except.error "Invalid change plan response", storedToken := storedToken
              schedules := schedules, backendCalled := true }
          else
            let storedToken1 :=
              if strFalsy r.newAccessToken then storedToken else r.newAccessToken
            let schedules1 := schedulePurchaseRefreshes schedules purchase now
            let schedules2 :=
              (scheduleRefresh schedules1 purchase.purchaseId (now + 10000)
                ("post-change-verification") now).schedules
            { result := Except.ok purchase, storedToken := storedToken1
              schedules := schedules2, backendCalled := true }

/-! ## Helper lemmas -/

/-- Setting an index of a list to the element already stored there leaves
the list unchanged. -/
theorem set_getElem?_self {α : Type} {l : List α} {i : Nat} {a : α}
    (h : l[i]? = some a) : l.set i a = l := by
  induction l generalizing i with
  | nil => simp at h
  | cons x xs ih =>
    cases i with
    | zero =>
      simp only [List.getElem?_cons_zero, Option.some.injEq] at h
      simp [h]
    | succ n =>
      simp only [List.getElem?_cons_succ] at h
      simp [ih h]

/-- A schedule record with `inProgress` forced to `false` equals the
original when the original's `inProgress` is already `false`. -/
theorem eq_self_of_not_inProgress {s : ScheduledRefresh}
    (h : s.inProgress = false) : { s with inProgress := false } = s := by
  cases s
  simp_all

/-- Replacing the schedule at a valid index by a copy with another
`inProgress` flag keeps the collection's ids unchanged. -/
theorem map_id_set_inProgress {schedules : List ScheduledRefresh} {i : Nat}
    {s : ScheduledRefresh} (h : schedules[i]? = some s) (b : Bool) :
    (schedules.set i { s with inProgress := b }).map (fun t => t.id) =
      schedules.map (fun t => t.id) := by
  rw [List.map_set]
  apply set_getElem?_self
  simp [List.getElem?_map, h]

/-- `List.any` after mapping a projection. -/
theorem any_map_proj {α β : Type} (f : α → β) (l : List α) (p : β → Bool) :
    (l.map f).any p = l.any (fun x => p (f x)) := by
  induction l with
  | nil => rfl
  | cons x xs ih => simp [ih]

/-! ## Claim theorems -/

/-- C5: a `scheduleRefresh` call with a fresh composite id always appends
the schedule record, with `completed = false` and `inProgress = false`,
while a platform timer is armed exactly when the delay `date - now` is
strictly positive and at most `SET_TIMEOUT_MAX_DELAY = 2147483647` ms. -/
theorem scheduleRefresh_fresh_append_armed
    (st : List ScheduledRefresh) (sid : String) (d : Int) (r : String)
    (now : Int)
    (hfresh : ∀ s ∈ st, s.id ≠ mkScheduleId sid d) :
    (scheduleRefresh st sid d r now).schedules =
      st ++ [{ id := mkScheduleId sid d, subscriptionId := sid,
               scheduledAt := d, completed := false, inProgress := false,
               reason := r }] ∧
    ((scheduleRefresh st sid d r now).armed = true ↔
      0 < d - now ∧ d - now ≤ SET_TIMEOUT_MAX_DELAY) := by
  have hany : st.any (fun s => s.id == mkScheduleId sid d) = false := by
    simp only [List.any_eq_false, beq_iff_eq]
    exact hfresh
  constructor
  · simp [scheduleRefresh, hany]
  · simp only [scheduleRefresh, hany, Bool.false_eq_true, if_false]
    simp only [timerArmed, SET_TIMEOUT_MAX_DELAY]
    split_ifs with h1 h2
    · simp only [Bool.false_eq_true, false_iff]
      omega
    · simp only [Bool.false_eq_true, false_iff]
      omega
    · simp only [true_iff]
      omega

/-- C5 witness: at `now = 0`, `date = 5000`, the entry is appended and a
timer is armed. -/
theorem scheduleRefresh_fresh_append_armed_witness :
    (scheduleRefresh [] "sub" 5000 "pre-expiration" 0).schedules =
      [{ id := mkScheduleId "sub" 5000, subscriptionId := "sub",
         scheduledAt := 5000, completed := false, inProgress := false,
         reason := "pre-expiration" }] ∧
    ((scheduleRefresh [] "sub" 5000 "pre-expiration" 0).armed = true ↔
      0 < (5000 : Int) - 0 ∧ (5000 : Int) - 0 ≤ SET_TIMEOUT_MAX_DELAY) :=
  scheduleRefresh_fresh_append_armed [] "sub" 5000 "pre-expiration" 0
    (by intro s hs; simp at hs)

/-- C3: `scheduleRefresh` is idempotent on the composite id: on any
collection holding at most one schedule with the computed id, two
identical calls leave exactly one schedule with that id; and a call whose
computed id already exists changes nothing (and arms no timer). -/
theorem scheduleRefresh_idempotent
    (st : List ScheduledRefresh) (sid : String) (d : Int) (r : String)
    (now now' : Int)
    (hle : st.countP (fun s => s.id == mkScheduleId sid d) ≤ 1) :
    ((scheduleRefresh (scheduleRefresh st sid d r now).schedules
        sid d r now').schedules.countP
          (fun s => s.id == mkScheduleId sid d) = 1) ∧
    ((∃ s ∈ st, s.id = mkScheduleId sid d) →
      scheduleRefresh st sid d r now = { schedules := st, armed := false }) := by
  constructor
  · by_cases hex : st.any (fun s => s.id == mkScheduleId sid d) = true
    · have hpos : 0 < st.countP (fun s => s.id == mkScheduleId sid d) := by
        rw [List.countP_pos_iff]
        simpa using hex
      have hone : st.countP (fun s => s.id == mkScheduleId sid d) = 1 := by omega
      simp [scheduleRefresh, hex, hone]
    · have hexf : st.any (fun s => s.id == mkScheduleId sid d) = false :=
        Bool.eq_false_iff.mpr hex
      have hz : st.countP (fun s => s.id == mkScheduleId sid d) = 0 := by
        rw [List.countP_eq_zero]
        intro a ha hpa
        exact hex (List.any_eq_true.mpr ⟨a, ha, hpa⟩)
      have h1 : (scheduleRefresh st sid d r now).schedules =
          st ++ [({ id := mkScheduleId sid d, subscriptionId := sid,
                    scheduledAt := d, completed := false, inProgress := false,
                    reason := r } : ScheduledRefresh)] := by
        simp [scheduleRefresh, hexf]
      rw [h1]
      have h2 : (st ++ [({ id := mkScheduleId sid d, subscriptionId := sid,
                           scheduledAt := d, completed := false,
                           inProgress := false,
                           reason := r } : ScheduledRefresh)]).any
          (fun s => s.id == mkScheduleId sid d) = true := by
        simp [List.any_append]
      simp only [scheduleRefresh, h2, if_true]
      simp [List.countP_append, hz]
  · intro ⟨s, hs, hid⟩
    have hex : st.any (fun s => s.id == mkScheduleId sid d) = true := by
      rw [List.any_eq_true]
      exact ⟨s, hs, by simp [hid]⟩
    simp [scheduleRefresh, hex]

/-- In the `try` block of `refreshProducts`, a successful result means the
cache was overwritten with the fetched products stamped at `now`. -/
theorem refreshProductsFetch_ok_cache (cache : Option CachedProducts)
    (now : Int) (b : Option ProductsHttpResponse) (ps : List Product)
    (h : (refreshProductsFetch cache now b).result = Except.ok ps) :
    (refreshProductsFetch cache now b).cache =
      some { products := ps, fetchedAt := now } := by
  cases b with
  | none => simp [refreshProductsFetch] at h
  | some r =>
    by_cases hok : r.ok
    · cases hp : r.products with
      | none => simp [refreshProductsFetch, hok, hp] at h
      | some ps' =>
        by_cases hd : r.dataOk
        · simp [refreshProductsFetch, hok, hp, hd] at h ⊢
          simp [h]
        · simp [refreshProductsFetch, hok, hp, hd] at h
    · simp [refreshProductsFetch, hok] at h

/-- In the `try` block of `refreshProducts`, an error leaves the cache
argument untouched. -/
theorem refreshProductsFetch_error_cache (cache : Option CachedProducts)
    (now : Int) (b : Option ProductsHttpResponse) (e : String)
    (h : (refreshProductsFetch cache now b).result = Except.error e) :
    (refreshProductsFetch cache now b).cache = cache := by
  cases b with
  | none => simp [refreshProductsFetch]
  | some r =>
    by_cases hok : r.ok
    · cases hp : r.products with
      | none => simp [refreshProductsFetch, hok, hp]
      | some ps' =>
        by_cases hd : r.dataOk
        · simp [refreshProductsFetch, hok, hp, hd] at h
        · simp [refreshProductsFetch, hok, hp, hd]
    · simp [refreshProductsFetch, hok]

/-- C8: a `getPurchases` call with no credential argument and no persisted
credential returns the empty list, raises no error, contacts no backend,
and leaves the stored token and the schedule collection unchanged. -/
theorem getPurchases_noCredential (sch : List ScheduledRefresh) (now : Int)
    (backend : Option PurchasesHttpResponse) :
    getPurchases none none sch now backend =
      { result := Except.ok [], storedToken := none, schedules := sch,
        backendCalled := false } := by
  simp [getPurchases, strFalsy]

/-- C6: `refreshProducts` returns the cached products without contacting
the backend whenever the cache entry is younger than 60000 ms
(`fetchedAt > now - 60000`); consequently, after a call that contacted the
backend and succeeded at time `t1`, a second call strictly within 60000 ms
performs no backend call, so the two calls contact the backend exactly
once. -/
theorem refreshProducts_debounce :
    (∀ (ps : List Product) (t now : Int) (backend : Option ProductsHttpResponse),
      t > now - 60000 →
      refreshProducts (some { products := ps, fetchedAt := t }) now backend =
        { result := Except.ok ps,
          cache := some { products := ps, fetchedAt := t },
          backendCalled := false }) ∧
    (∀ (cache : Option CachedProducts) (t1 t2 : Int)
        (b1 b2 : Option ProductsHttpResponse) (ps : List Product),
      (refreshProducts cache t1 b1).backendCalled = true →
      (refreshProducts cache t1 b1).result = Except.ok ps →
      t2 - t1 < 60000 →
      refreshProducts (refreshProducts cache t1 b1).cache t2 b2 =
        { result := Except.ok ps,
          cache := some { products := ps, fetchedAt := t1 },
          backendCalled := false }) := by
  have fresh : ∀ (ps : List Product) (t now : Int)
      (backend : Option ProductsHttpResponse),
      t > now - 60000 →
      refreshProducts (some { products := ps, fetchedAt := t }) now backend =
        { result := Except.ok ps,
          cache := some { products := ps, fetchedAt := t },
          backendCalled := false } := by
    intro ps t now backend h
    simp [refreshProducts, h]
  refine ⟨fresh, ?_⟩
  intro cache t1 t2 b1 b2 ps hcall hok hlt
  have hcache : (refreshProducts cache t1 b1).cache =
      some { products := ps, fetchedAt := t1 } := by
    cases cache with
    | none =>
      simp only [refreshProducts] at hok ⊢
      exact refreshProductsFetch_ok_cache none t1 b1 ps hok
    | some c =>
      by_cases hf : c.fetchedAt > t1 - 60000
      · simp [refreshProducts, hf] at hcall
      · simp only [refreshProducts, hf, if_false] at hok ⊢
        exact refreshProductsFetch_ok_cache (some c) t1 b1 ps hok
  rw [hcache]
  exact fresh ps t1 t2 b2 (by omega)

/-- C6 witness: a stale-cache call at time 0 that succeeds with an empty
product list, followed by a call at time 1000, contacts the backend once
and returns the cached list the second time. -/
theorem refreshProducts_debounce_witness :
    refreshProducts
        (refreshProducts none 0
          (some { ok := true, dataOk := true, products := some [] })).cache
        1000 none =
      { result := Except.ok [], cache := some { products := [], fetchedAt := 0 },
        backendCalled := false } :=
  refreshProducts_debounce.2 none 0 1000
    (some { ok := true, dataOk := true, products := some [] }) none []
    (by decide) (by decide) (by decide)

/-- C7: whenever `refreshProducts` fails (transport error, non-success
HTTP status, or a payload with `ok` false or missing `products`), the
error is surfaced in the result and the stored product cache is exactly
what it was before the call. -/
theorem refreshProducts_error_keeps_cache :
    (∀ (cache : Option CachedProducts) (now : Int)
        (b : Option ProductsHttpResponse) (e : String),
      (refreshProducts cache now b).result = Except.error e →
      (refreshProducts cache now b).cache = cache) ∧
    (∀ (cache : Option CachedProducts) (now : Int)
        (b : Option ProductsHttpResponse),
      (∀ c, cache = some c → ¬c.fetchedAt > now - 60000) →
      (b = none ∨ ∃ r, b = some r ∧
        (r.ok = false ∨ r.dataOk = false ∨ r.products = none)) →
      ∃ e, (refreshProducts cache now b).result = Except.error e) := by
  constructor
  · intro cache now b e h
    cases cache with
    | none =>
      simp only [refreshProducts] at h ⊢
      exact refreshProductsFetch_error_cache none now b e h
    | some c =>
      by_cases hf : c.fetchedAt > now - 60000
      · simp [refreshProducts, hf] at h
      · simp only [refreshProducts, hf, if_false] at h ⊢
        exact refreshProductsFetch_error_cache (some c) now b e h
  · intro cache now b hstale hbad
    have hfetch : ∃ e, (refreshProductsFetch cache now b).result = Except.error e := by
      rcases hbad with rfl | ⟨r, rfl, hr⟩
      · exact ⟨"transport error", by simp [refreshProductsFetch]⟩
      · rcases hr with hok | hd | hp
        · exact ⟨"Failed to fetch prices from Iaptic", by simp [refreshProductsFetch, hok]⟩
        · by_cases hok : r.ok
          · cases hps : r.products with
            | none =>
              exact ⟨"Invalid response from Iaptic", by simp [refreshProductsFetch, hok, hps]⟩
            | some ps =>
              exact ⟨"Invalid response from Iaptic", by simp [refreshProductsFetch, hok, hps, hd]⟩
          · exact ⟨"Failed to fetch prices from Iaptic", by
              simp [refreshProductsFetch, hok]⟩
        · by_cases hok : r.ok
          · exact ⟨"Invalid response from Iaptic", by simp [refreshProductsFetch, hok, hp]⟩
          · exact ⟨"Failed to fetch prices from Iaptic", by
              simp [refreshProductsFetch, hok]⟩
    cases cache with
    | none => simpa only [refreshProducts] using hfetch
    | some c =>
      have hf : ¬c.fetchedAt > now - 60000 := hstale c rfl
      simpa only [refreshProducts, hf, if_false] using hfetch

/-- C7 witness: a transport error on a stale cache leaves the cache
intact and surfaces an error. -/
theorem refreshProducts_error_keeps_cache_witness :
    (refreshProducts (some { products := [], fetchedAt := 0 }) 100000 none).cache =
      some { products := [], fetchedAt := 0 } ∧
    ∃ e, (refreshProducts (some { products := [], fetchedAt := 0 }) 100000 none).result =
      Except.error e :=
  ⟨refreshProducts_error_keeps_cache.1 (some { products := [], fetchedAt := 0 })
      100000 none "transport error" (by decide),
    refreshProducts_error_keeps_cache.2 (some { products := [], fetchedAt := 0 })
      100000 none (by intro c hc; cases hc; decide) (Or.inl rfl)⟩

/-- C3 witness: from the empty collection, two identical calls store the
schedule exactly once, and on a collection already holding the id the call
is a state-preserving no-op. -/
theorem scheduleRefresh_idempotent_witness :
    ((scheduleRefresh (scheduleRefresh [] "sub" 5000 "pre-expiration" 0).schedules
        "sub" 5000 "pre-expiration" 0).schedules.countP
          (fun s => s.id == mkScheduleId "sub" 5000) = 1) ∧
    ((∃ s ∈ ([] : List ScheduledRefresh), s.id = mkScheduleId "sub" 5000) →
      scheduleRefresh [] "sub" 5000 "pre-expiration" 0 =
        { schedules := [], armed := false }) :=
  scheduleRefresh_idempotent [] "sub" 5000 "pre-expiration" 0 0 (by decide)

/-- C1: a timer callback for the schedule at index `i` never starts a
refresh while some schedule in the collection shares its subscription
identifier and has `inProgress = true`: it neither calls the
purchase-fetch operation nor changes any schedule, whatever the firing
time, catch-block time and refresh outcome. -/
theorem runScheduleCallback_mutualExclusion
    (schedules : List ScheduledRefresh) (i : Nat) (now failTime : Int)
    (refreshOk : Bool) (s : ScheduledRefresh)
    (hs : schedules[i]? = some s)
    (hsib : ∃ t ∈ schedules, t.subscriptionId = s.subscriptionId ∧ t.inProgress = true) :
    runScheduleCallback schedules i now failTime refreshOk =
      { schedules := schedules, fetchCalled := false } := by
  have hany : schedules.any
      (fun t => t.subscriptionId == s.subscriptionId && t.inProgress) = true := by
    rw [List.any_eq_true]
    obtain ⟨t, ht, hsub, hprog⟩ := hsib
    exact ⟨t, ht, by simp [hsub, hprog]⟩
  simp only [runScheduleCallback, hs]
  split_ifs <;> rfl

/-- C1 witness: a callback for a schedule whose sibling is mid-refresh
returns with nothing changed and no fetch. -/
theorem runScheduleCallback_mutualExclusion_witness :
    runScheduleCallback
        [{ id := "sub-5000", subscriptionId := "sub", scheduledAt := 5000,
           completed := false, inProgress := false, reason := "pre-expiration" },
         { id := "sub-9000", subscriptionId := "sub", scheduledAt := 9000,
           completed := false, inProgress := true, reason := "post-expiration" }]
        0 6000 6000 false =
      { schedules :=
          [{ id := "sub-5000", subscriptionId := "sub", scheduledAt := 5000,
             completed := false, inProgress := false, reason := "pre-expiration" },
           { id := "sub-9000", subscriptionId := "sub", scheduledAt := 9000,
             completed := false, inProgress := true, reason := "post-expiration" }],
        fetchCalled := false } :=
  runScheduleCallback_mutualExclusion _ 0 6000 6000 false
    { id := "sub-5000", subscriptionId := "sub", scheduledAt := 5000,
      completed := false, inProgress := false, reason := "pre-expiration" }
    (by decide)
    ⟨{ id := "sub-9000", subscriptionId := "sub", scheduledAt := 9000,
       completed := false, inProgress := true, reason := "post-expiration" },
      by decide, by decide, by decide⟩

/-- C2 counterexample: a failing non-retry callback creates no retry
schedule when the computed retry id already exists.  The `pre-expiration`
schedule `s-1000000` fires and fails at time 1000000, so the retry would
get id `s-1030000` — already taken by a sibling `post-expiration` schedule
(armed after a later purchase fetch reported a renewed expiration
1020000), so `scheduleRefresh` drops it: the fetch was attempted
(`fetchCalled`), yet no `retry-pre-expiration` schedule exists afterwards
and the collection did not grow, contradicting "exactly one new schedule
is created". -/
theorem runScheduleCallback_retry_collision_counterexample :
    (runScheduleCallback
        [{ id := "s-1000000", subscriptionId := "s", scheduledAt := 1000000,
           completed := false, inProgress := false, reason := "pre-expiration" },
         { id := "s-1030000", subscriptionId := "s", scheduledAt := 1030000,
           completed := false, inProgress := false, reason := "post-expiration" }]
        0 1000000 1000000 false).fetchCalled = true ∧
    strStartsWith ("pre-expiration") ("retry-") = false ∧
    (runScheduleCallback
        [{ id := "s-1000000", subscriptionId := "s", scheduledAt := 1000000,
           completed := false, inProgress := false, reason := "pre-expiration" },
         { id := "s-1030000", subscriptionId := "s", scheduledAt := 1030000,
           completed := false, inProgress := false, reason := "post-expiration" }]
        0 1000000 1000000 false).schedules.countP
      (fun s => s.reason == "retry-pre-expiration") = 0 ∧
    (runScheduleCallback
        [{ id := "s-1000000", subscriptionId := "s", scheduledAt := 1000000,
           completed := false, inProgress := false, reason := "pre-expiration" },
         { id := "s-1030000", subscriptionId := "s", scheduledAt := 1030000,
           completed := false, inProgress := false, reason := "post-expiration" }]
        0 1000000 1000000 false).schedules.length = 2 := by
  decide

/-- C2 (amended): when the refresh attempt inside a timer callback fails,
the error is swallowed (the callback still returns a result, with the
fetch attempted) and: for a non-retry reason, exactly one new schedule —
reason `retry-` prepended, `scheduledAt` the failure time plus 30000 ms —
is appended, unless a schedule with the computed composite id already
exists, in which case nothing is created; for a reason already
retry-prefixed nothing is created; in every case the collection is
otherwise unchanged, so the failing schedule's `completed` stays false. -/
theorem runScheduleCallback_failure_retry
    (schedules : List ScheduledRefresh) (i : Nat) (now failTime : Int)
    (s : ScheduledRefresh)
    (hs : schedules[i]? = some s)
    (hc : s.completed = false)
    (hstale : ¬s.scheduledAt - 10000 > now)
    (hnoprog : ∀ t ∈ schedules, t.subscriptionId = s.subscriptionId →
      t.inProgress = false) :
    (runScheduleCallback schedules i now failTime false).fetchCalled = true ∧
    (strStartsWith s.reason ("retry-") = false →
      (∀ t ∈ schedules, t.id ≠ mkScheduleId s.subscriptionId (failTime + 30000)) →
      (runScheduleCallback schedules i now failTime false).schedules =
        schedules ++
          [{ id := mkScheduleId s.subscriptionId (failTime + 30000),
             subscriptionId := s.subscriptionId,
             scheduledAt := failTime + 30000, completed := false,
             inProgress := false, reason := "retry-" ++ s.reason }]) ∧
    (strStartsWith s.reason ("retry-") = false →
      (∃ t ∈ schedules, t.id = mkScheduleId s.subscriptionId (failTime + 30000)) →
      (runScheduleCallback schedules i now failTime false).schedules = schedules) ∧
    (strStartsWith s.reason ("retry-") = true →
      (runScheduleCallback schedules i now failTime false).schedules = schedules) := by
  have hmem : s ∈ schedules := by
    rcases List.getElem?_eq_some.mp hs with ⟨h, he⟩
    exact he ▸ List.getElem_mem h
  have hilen : i < schedules.length := (List.getElem?_eq_some.mp hs).1
  have hsp : s.inProgress = false := hnoprog s hmem rfl
  have hsfix : ({ s with inProgress := false } : ScheduledRefresh) = s :=
    eq_self_of_not_inProgress hsp
  have hany : schedules.any
      (fun t => t.subscriptionId == s.subscriptionId && t.inProgress) = false := by
    simp only [List.any_eq_false]
    intro t ht
    simp only [Bool.and_eq_true, beq_iff_eq, not_and]
    intro hsub
    simp [hnoprog t ht hsub]
  have hcond1 : ¬s.completed = true := by simp [hc]
  have hcond3 : ¬(schedules.any
      (fun t => t.subscriptionId == s.subscriptionId && t.inProgress) = true) := by
    simp [hany]
  have hcollapse :
      ((schedules.set i { s with inProgress := true }).set i
        { s with inProgress := false }) = schedules := by
    rw [List.set_set, hsfix, set_getElem?_self hs]
  have hrun : runScheduleCallback schedules i now failTime false =
      { schedules :=
          (if strStartsWith s.reason ("retry-") then
            schedules.set i { s with inProgress := true }
          else
            (scheduleRefresh (schedules.set i { s with inProgress := true })
              s.subscriptionId (failTime + 30000) ("retry-" ++ s.reason)
              failTime).schedules).set i { s with inProgress := false },
        fetchCalled := true } := by
    simp only [runScheduleCallback, hs, if_neg hcond1, if_neg hstale,
      if_neg hcond3, Bool.false_eq_true, if_false]
  refine ⟨by rw [hrun], ?_, ?_, ?_⟩
  · intro hr hfresh
    have hany2 : (schedules.set i { s with inProgress := true }).any
        (fun t => t.id == mkScheduleId s.subscriptionId (failTime + 30000)) = false := by
      simp only [List.any_eq_false]
      intro t ht
      rcases List.mem_or_eq_of_mem_set ht with h | rfl
      · simp [hfresh t h]
      · simpa using hfresh s hmem
    rw [hrun]
    simp only [hr, Bool.false_eq_true, if_false, scheduleRefresh, hany2,
      Bool.false_eq_true, if_false]
    rw [List.set_append]
    simp only [List.length_set, hilen, if_pos]
    rw [hcollapse]
  · intro hr hdup
    obtain ⟨t, ht, hid⟩ := hdup
    have hids : (schedules.set i { s with inProgress := true }).map
        (fun x => x.id) = schedules.map (fun x => x.id) :=
      map_id_set_inProgress hs true
    have hany2 : (schedules.set i { s with inProgress := true }).any
        (fun x => x.id == mkScheduleId s.subscriptionId (failTime + 30000)) = true := by
      rw [← any_map_proj (fun x : ScheduledRefresh => x.id) _
        (fun y => y == mkScheduleId s.subscriptionId (failTime + 30000))]
      rw [hids]
      rw [any_map_proj (fun x : ScheduledRefresh => x.id) _
        (fun y => y == mkScheduleId s.subscriptionId (failTime + 30000))]
      exact List.any_eq_true.mpr ⟨t, ht, by simp [hid]⟩
    rw [hrun]
    simp only [hr, Bool.false_eq_true, if_false, scheduleRefresh, hany2, if_true]
    exact hcollapse
  · intro hr
    rw [hrun]
    simp only [hr, if_true]
    exact hcollapse

/-- C2 witness: a lone failing `pre-expiration` schedule produces exactly
one `retry-pre-expiration` schedule 30000 ms after the failure time. -/
theorem runScheduleCallback_failure_retry_witness :
    (runScheduleCallback
        [{ id := "sub-5000", subscriptionId := "sub", scheduledAt := 5000,
           completed := false, inProgress := false, reason := "pre-expiration" }]
        0 6000 6000 false).fetchCalled = true ∧
    (strStartsWith ("pre-expiration") ("retry-") = false →
      (∀ t ∈ [({ id := "sub-5000", subscriptionId := "sub", scheduledAt := 5000,
                 completed := false, inProgress := false,
                 reason := "pre-expiration" } : ScheduledRefresh)],
        t.id ≠ mkScheduleId "sub" (6000 + 30000)) →
      (runScheduleCallback
          [{ id := "sub-5000", subscriptionId := "sub", scheduledAt := 5000,
             completed := false, inProgress := false, reason := "pre-expiration" }]
          0 6000 6000 false).schedules =
        [{ id := "sub-5000", subscriptionId := "sub", scheduledAt := 5000,
           completed := false, inProgress := false, reason := "pre-expiration" }] ++
          [{ id := mkScheduleId "sub" (6000 + 30000), subscriptionId := "sub",
             scheduledAt := 6000 + 30000, completed := false,
             inProgress := false, reason := "retry-" ++ "pre-expiration" }]) ∧
    (strStartsWith ("pre-expiration") ("retry-") = false →
      (∃ t ∈ [({ id := "sub-5000", subscriptionId := "sub", scheduledAt := 5000,
                 completed := false, inProgress := false,
                 reason := "pre-expiration" } : ScheduledRefresh)],
        t.id = mkScheduleId "sub" (6000 + 30000)) →
      (runScheduleCallback
          [{ id := "sub-5000", subscriptionId := "sub", scheduledAt := 5000,
             completed := false, inProgress := false, reason := "pre-expiration" }]
          0 6000 6000 false).schedules =
        [{ id := "sub-5000", subscriptionId := "sub", scheduledAt := 5000,
           completed := false, inProgress := false, reason := "pre-expiration" }]) ∧
    (strStartsWith ("pre-expiration") ("retry-") = true →
      (runScheduleCallback
          [{ id := "sub-5000", subscriptionId := "sub", scheduledAt := 5000,
             completed := false, inProgress := false, reason := "pre-expiration" }]
          0 6000 6000 false).schedules =
        [{ id := "sub-5000", subscriptionId := "sub", scheduledAt := 5000,
           completed := false, inProgress := false, reason := "pre-expiration" }]) :=
  runScheduleCallback_failure_retry
    [{ id := "sub-5000", subscriptionId := "sub", scheduledAt := 5000,
       completed := false, inProgress := false, reason := "pre-expiration" }]
    0 6000 6000
    { id := "sub-5000", subscriptionId := "sub", scheduledAt := 5000,
      completed := false, inProgress := false, reason := "pre-expiration" }
    (by decide) (by decide) (by decide) (by decide)

/-- `scheduleRefresh` as an append: the schedule record is appended
exactly when its composite id is absent. -/
theorem scheduleRefresh_toAppend (st : List ScheduledRefresh) (sid : String)
    (d : Int) (r : String) (now : Int) :
    (scheduleRefresh st sid d r now).schedules =
      st ++ (if st.any (fun s => s.id == mkScheduleId sid d) = false then
        [{ id := mkScheduleId sid d, subscriptionId := sid, scheduledAt := d,
           completed := false, inProgress := false, reason := r }]
      else []) := by
  by_cases h : st.any (fun s => s.id == mkScheduleId sid d) = true
  · simp [scheduleRefresh, h]
  · have hf := Bool.eq_false_iff.mpr h
    simp [scheduleRefresh, hf]

/-- C4 counterexample: a purchase expiring at 100000 is handed to
`schedulePurchaseRefreshes` at time 85000 — both target times 90000 and
110000 are strictly in the future — on a collection already holding a
schedule with id `p-90000` (a `post-change-verification` probe armed by a
`changePlan` at time 80000).  Only the post-expiration schedule is
created: no `pre-expiration` schedule exists afterwards and the
collection grew by one, not two. -/
theorem schedulePurchaseRefreshes_collision_counterexample :
    ((100000 : Int) - 10000 > 85000) ∧ ((100000 : Int) + 10000 > 85000) ∧
    (schedulePurchaseRefreshes
        [{ id := "p-90000", subscriptionId := "p", scheduledAt := 90000,
           completed := false, inProgress := false,
           reason := "post-change-verification" }]
        { purchaseId := "p", expirationDate := some 100000 }
        85000).countP (fun s => s.reason == "pre-expiration") = 0 ∧
    (schedulePurchaseRefreshes
        [{ id := "p-90000", subscriptionId := "p", scheduledAt := 90000,
           completed := false, inProgress := false,
           reason := "post-change-verification" }]
        { purchaseId := "p", expirationDate := some 100000 }
        85000).length = 2 := by
  decide

/-- C4 (amended): a purchase without an expiration date produces no
schedule; a purchase expiring at `exp` produces the `pre-expiration`
schedule at `exp - 10000` and the `post-expiration` schedule at
`exp + 10000`, each skipped when its target time is not strictly after
`now` or when a schedule with its composite id already exists in the
collection. -/
theorem schedulePurchaseRefreshes_spec (st : List ScheduledRefresh)
    (p : Purchase) (now : Int) :
    (p.expirationDate = none → schedulePurchaseRefreshes st p now = st) ∧
    (∀ exp, p.expirationDate = some exp →
      mkScheduleId p.purchaseId (exp - 10000) ≠
        mkScheduleId p.purchaseId (exp + 10000) →
      schedulePurchaseRefreshes st p now =
        st ++
          (if exp - 10000 > now ∧
              st.any (fun s => s.id == mkScheduleId p.purchaseId (exp - 10000))
                = false then
            [{ id := mkScheduleId p.purchaseId (exp - 10000),
               subscriptionId := p.purchaseId, scheduledAt := exp - 10000,
               completed := false, inProgress := false,
               reason := "pre-expiration" }]
          else []) ++
          (if exp + 10000 > now ∧
              st.any (fun s => s.id == mkScheduleId p.purchaseId (exp + 10000))
                = false then
            [{ id := mkScheduleId p.purchaseId (exp + 10000),
               subscriptionId := p.purchaseId, scheduledAt := exp + 10000,
               completed := false, inProgress := false,
               reason := "post-expiration" }]
          else [])) := by
  constructor
  · intro h
    simp [schedulePurchaseRefreshes, h]
  · intro exp he hne
    simp only [schedulePurchaseRefreshes, he, List.foldl_cons, List.foldl_nil]
    have step1 :
        (if (exp - 10000) > now then
          (scheduleRefresh st p.purchaseId (exp - 10000) ("pre-expiration")
            now).schedules
        else st) =
          st ++
            (if exp - 10000 > now ∧
                st.any (fun s => s.id == mkScheduleId p.purchaseId (exp - 10000))
                  = false then
              [{ id := mkScheduleId p.purchaseId (exp - 10000),
                 subscriptionId := p.purchaseId, scheduledAt := exp - 10000,
                 completed := false, inProgress := false,
                 reason := "pre-expiration" }]
            else []) := by
      by_cases h1 : exp - 10000 > now
      · rw [if_pos h1, scheduleRefresh_toAppend]
        by_cases hf : st.any
            (fun s => s.id == mkScheduleId p.purchaseId (exp - 10000)) = false
        · simp [h1, hf]
        · simp [h1, hf]
      · simp [h1]
    have postIdAbsentL1 : ∀ L1 : List ScheduledRefresh,
        (∀ t ∈ L1, t.id = mkScheduleId p.purchaseId (exp - 10000)) →
        (st ++ L1).any
            (fun s => s.id == mkScheduleId p.purchaseId (exp + 10000)) =
          st.any (fun s => s.id == mkScheduleId p.purchaseId (exp + 10000)) := by
      intro L1 hL1
      rw [List.any_append]
      have : L1.any
          (fun s => s.id == mkScheduleId p.purchaseId (exp + 10000)) = false := by
        simp only [List.any_eq_false]
        intro t ht
        simp [hL1 t ht, hne]
      simp [this]
    rw [step1]
    by_cases h2 : exp + 10000 > now
    · rw [if_pos h2, scheduleRefresh_toAppend, postIdAbsentL1]
      · by_cases hf2 : st.any
            (fun s => s.id == mkScheduleId p.purchaseId (exp + 10000)) = false
        · simp [h2, hf2, List.append_assoc]
        · simp [h2, hf2]
      · intro t ht
        by_cases h1 : exp - 10000 > now ∧
            st.any (fun s => s.id == mkScheduleId p.purchaseId (exp - 10000))
              = false
        · rw [if_pos h1] at ht
          simp only [List.mem_singleton] at ht
          simp [ht]
        · rw [if_neg h1] at ht
          simp at ht
    · rw [if_neg h2]
      have h2' : ¬(exp + 10000 > now ∧
          st.any (fun s => s.id == mkScheduleId p.purchaseId (exp + 10000))
            = false) := by
        intro ⟨ha, _⟩
        exact h2 ha
      rw [if_neg h2', List.append_nil]

/-- C4 witness: a purchase expiring one hour after `now = 0`, handed to an
empty collection, yields exactly the two schedules at
`expiration - 10000` and `expiration + 10000`. -/
theorem schedulePurchaseRefreshes_spec_witness :
    schedulePurchaseRefreshes [] { purchaseId := "p", expirationDate := some 3600000 } 0 =
      [] ++
        (if (3600000 : Int) - 10000 > 0 ∧
            ([] : List ScheduledRefresh).any
              (fun s => s.id == mkScheduleId "p" ((3600000 : Int) - 10000)) = false then
          [{ id := mkScheduleId "p" ((3600000 : Int) - 10000), subscriptionId := "p",
             scheduledAt := (3600000 : Int) - 10000, completed := false,
             inProgress := false, reason := "pre-expiration" }]
        else []) ++
        (if (3600000 : Int) + 10000 > 0 ∧
            ([] : List ScheduledRefresh).any
              (fun s => s.id == mkScheduleId "p" ((3600000 : Int) + 10000)) = false then
          [{ id := mkScheduleId "p" ((3600000 : Int) + 10000), subscriptionId := "p",
             scheduledAt := (3600000 : Int) + 10000, completed := false,
             inProgress := false, reason := "post-expiration" }]
        else []) :=
  (schedulePurchaseRefreshes_spec []
      { purchaseId := "p", expirationDate := some 3600000 } 0).2
    3600000 rfl (by decide)

/-- C9: a `getPurchases` call that reaches the backend and succeeds hands
every purchase of the response to `schedulePurchaseRefreshes` (in response
order), overwrites the persisted credential exactly when the response
carries a truthy `newAccessToken`, and returns the response's purchase
list. -/
theorem getPurchases_success_forwards
    (tokArg stored : Option String) (sch : List ScheduledRefresh) (now : Int)
    (r : PurchasesHttpResponse)
    (htok : strFalsy (if strFalsy tokArg then stored else tokArg) = false)
    (hok : r.ok = true) (hdata : r.dataOk = true) :
    getPurchases tokArg stored sch now (some r) =
      { result := Except.ok r.purchases,
        storedToken :=
          if strFalsy r.newAccessToken then stored else r.newAccessToken,
        schedules :=
          r.purchases.foldl (fun acc p => schedulePurchaseRefreshes acc p now) sch,
        backendCalled := true } := by
  simp [getPurchases, htok, hok, hdata]

/-- C9 witness: a successful response with one expiring purchase and a
rotated credential stores the credential and schedules that purchase's
refreshes. -/
theorem getPurchases_success_forwards_witness :
    getPurchases (some "tok") none [] 0
        (some { ok := true, dataOk := true,
                purchases := [{ purchaseId := "p", expirationDate := some 3600000 }],
                newAccessToken := some "newTok" }) =
      { result := Except.ok [{ purchaseId := "p", expirationDate := some 3600000 }],
        storedToken :=
          if strFalsy (some "newTok") then none else some "newTok",
        schedules :=
          [({ purchaseId := "p", expirationDate := some 3600000 } : Purchase)].foldl
            (fun acc p => schedulePurchaseRefreshes acc p 0) [],
        backendCalled := true } :=
  getPurchases_success_forwards (some "tok") none [] 0
    { ok := true, dataOk := true,
      purchases := [{ purchaseId := "p", expirationDate := some 3600000 }],
      newAccessToken := some "newTok" }
    (by decide) (by decide) (by decide)

/-- C10 counterexample to the unconditional reading: a successful
`changePlan` whose purchase expires exactly at the response time creates
no `post-change-verification` schedule, because the `post-expiration`
schedule (at expiration + 10000 = now + 10000) already owns the composite
id that the extra `scheduleRefresh` call computes. -/
theorem changePlan_counterexample :
    (changePlan (some "tok") none [] 0
        (some { ok := true, dataOk := true,
                purchase := some { purchaseId := "p", expirationDate := some 0 },
                newAccessToken := none })).result =
      Except.ok { purchaseId := "p", expirationDate := some 0 } ∧
    (changePlan (some "tok") none [] 0
        (some { ok := true, dataOk := true,
                purchase := some { purchaseId := "p", expirationDate := some 0 },
                newAccessToken := none })).schedules.countP
      (fun s => s.reason == "post-change-verification") = 0 := by
  decide

/-- C10 (amended): every successful `changePlan` call, after handing the
returned purchase to `schedulePurchaseRefreshes`, calls `scheduleRefresh`
for that purchase's identifier at the response time plus 10000 ms with
reason `post-change-verification`; the extra schedule is appended
whenever its composite id is not already taken (the spec never mentions
this third schedule). -/
theorem changePlan_success_schedules
    (tokArg stored : Option String) (sch : List ScheduledRefresh) (now : Int)
    (r : ChangePlanHttpResponse) (purchase : Purchase)
    (htok : strFalsy (if strFalsy tokArg then stored else tokArg) = false)
    (hok : r.ok = true) (hdata : r.dataOk = true)
    (hp : r.purchase = some purchase) :
    (changePlan tokArg stored sch now (some r)).result = Except.ok purchase ∧
    (changePlan tokArg stored sch now (some r)).schedules =
      (scheduleRefresh (schedulePurchaseRefreshes sch purchase now)
        purchase.purchaseId (now + 10000) ("post-change-verification")
        now).schedules ∧
    ((∀ t ∈ schedulePurchaseRefreshes sch purchase now,
        t.id ≠ mkScheduleId purchase.purchaseId (now + 10000)) →
      (changePlan tokArg stored sch now (some r)).schedules =
        schedulePurchaseRefreshes sch purchase now ++
          [{ id := mkScheduleId purchase.purchaseId (now + 10000),
             subscriptionId := purchase.purchaseId, scheduledAt := now + 10000,
             completed := false, inProgress := false,
             reason := "post-change-verification" }]) := by
  have hmain : changePlan tokArg stored sch now (some r) =
      { result := Except.ok purchase,
        storedToken :=
          if strFalsy r.newAccessToken then stored else r.newAccessToken,
        schedules :=
          (scheduleRefresh (schedulePurchaseRefreshes sch purchase now)
            purchase.purchaseId (now + 10000) ("post-change-verification")
            now).schedules,
        backendCalled := true } := by
    simp [changePlan, htok, hok, hdata, hp]
  refine ⟨by rw [hmain], by rw [hmain], ?_⟩
  intro hfresh
  rw [hmain]
  have hany : (schedulePurchaseRefreshes sch purchase now).any
      (fun s => s.id == mkScheduleId purchase.purchaseId (now + 10000)) = false := by
    simp only [List.any_eq_false]
    intro t ht
    simp [hfresh t ht]
  simp only [scheduleRefresh_toAppend, hany, if_pos]

/-- C10 witness: a successful plan change for a non-expiring purchase on
an empty collection creates exactly the `post-change-verification`
schedule 10000 ms after the response. -/
theorem changePlan_success_schedules_witness :
    (changePlan (some "tok") none [] 0
        (some { ok := true, dataOk := true,
                purchase := some { purchaseId := "p", expirationDate := none },
                newAccessToken := none })).result =
      Except.ok { purchaseId := "p", expirationDate := none } ∧
    (changePlan (some "tok") none [] 0
        (some { ok := true, dataOk := true,
                purchase := some { purchaseId := "p", expirationDate := none },
                newAccessToken := none })).schedules =
      (scheduleRefresh
        (schedulePurchaseRefreshes [] { purchaseId := "p", expirationDate := none } 0)
        "p" ((0 : Int) + 10000) ("post-change-verification") 0).schedules ∧
    ((∀ t ∈ schedulePurchaseRefreshes []
          ({ purchaseId := "p", expirationDate := none } : Purchase) 0,
        t.id ≠ mkScheduleId "p" ((0 : Int) + 10000)) →
      (changePlan (some "tok") none [] 0
          (some { ok := true, dataOk := true,
                  purchase := some { purchaseId := "p", expirationDate := none },
                  newAccessToken := none })).schedules =
        schedulePurchaseRefreshes []
            ({ purchaseId := "p", expirationDate := none } : Purchase) 0 ++
          [{ id := mkScheduleId "p" ((0 : Int) + 10000), subscriptionId := "p",
             scheduledAt := (0 : Int) + 10000, completed := false,
             inProgress := false, reason := "post-change-verification" }]) :=
  changePlan_success_schedules (some "tok") none [] 0
    { ok := true, dataOk := true,
      purchase := some { purchaseId := "p", expirationDate := none },
      newAccessToken := none }
    { purchaseId := "p", expirationDate := none }
    (by decide) (by decide) (by decide) (by decide)

end IapticJS
